import Mathlib

/-! Verification of the evidence-extraction pipeline of the disaster-relief
backend: a shallow embedding of `app/services/evidence.py`,
`app/services/ocr.py`, `app/services/llm_client.py` and
`app/document_requirements.py`, with theorems about the specification's
claims. Generative-model, OCR-engine and PDF-renderer outcomes are oracle
parameters carried in environment records; Python strings are modelled as
Lean strings, and Python float amounts, which in this pipeline always carry
at most two decimal places, are modelled exactly by their number of cents.
All definitions are computable so that concrete runs evaluate by kernel
reduction. -/

/-! Python string primitives, modelled character by character. -/

/-- Boolean test that the first character list is an initial segment of the
second (used to model Python substring search). -/
def listPre : List Char → List Char → Bool
  | [], _ => true
  | _ :: _, [] => false
  | a :: as, b :: bs => a == b && listPre as bs

/-- Boolean test that `needle` occurs contiguously inside the second list. -/
def listSub (needle : List Char) : List Char → Bool
  | [] => needle.isEmpty
  | b :: bs => listPre needle (b :: bs) || listSub needle bs

/-- Python substring test `needle in hay`. -/
def pyIn (needle hay : String) : Bool := listSub needle.toList hay.toList

/-- Python `s.endswith(t)`. -/
def pyEndsWith (s t : String) : Bool := listPre t.toList.reverse s.toList.reverse

/-- Python `s.lower()` (the pipeline only lowercases ASCII text). -/
def pyLower (s : String) : String := String.mk (s.toList.map Char.toLower)

/-- Python `s.strip()`: drop whitespace from both ends. -/
def pyStrip (s : String) : String :=
  String.mk (((s.toList.dropWhile Char.isWhitespace).reverse.dropWhile
    Char.isWhitespace).reverse)

/-- Python `s.rstrip(chars)`: drop trailing characters drawn from `chars`. -/
def pyRStrip (chars : List Char) (s : String) : String :=
  String.mk ((s.toList.reverse.dropWhile (fun c => chars.contains c)).reverse)

/-- Python slicing `s[:n]`. -/
def pyTake (n : Nat) (s : String) : String := String.mk (s.toList.take n)

/-- Python slicing `s[-n:]`: the last `n` characters (the whole string when it
is shorter). -/
def pyTakeLast (n : Nat) (s : String) : String :=
  String.mk ((s.toList.reverse.take n).reverse)

/-- Python `re.sub(r"[^0-9]", "", s)`: keep only the decimal digits. -/
def onlyDigits (s : String) : String := String.mk (s.toList.filter Char.isDigit)

/-- Python `re.sub(r"[^a-zA-Z0-9]", "_", s)`: every character outside
`[a-zA-Z0-9]` becomes an underscore. -/
def underscoreNonAlnum (s : String) : String :=
  String.mk (s.toList.map (fun c => if c.isAlphanum then c else '_'))

/-- Replace every occurrence of the character `old` by the list `new`. -/
def replaceCharList (old : Char) (new : List Char) : List Char → List Char
  | [] => []
  | c :: rest => (if c == old then new else [c]) ++ replaceCharList old new rest

/-- Python `s.replace(old, new)` for a one-character pattern (the source only
ever replaces the single characters "/" and " "). -/
def pyReplaceChar (old : Char) (new : String) (s : String) : String :=
  String.mk (replaceCharList old new.toList s.toList)

/-- Python `sep.join(parts)`. -/
def pyJoin (sep : String) : List String → String
  | [] => ""
  | [s] => s
  | s :: rest => s ++ sep ++ pyJoin sep rest

/-- Lookup in a Python dict built from an association list (a later binding of
the same key overwrites an earlier one), with default `d`. -/
def dictGetD (m : List (String × String)) (k d : String) : String :=
  match m.reverse.find? (fun p => p.1 == k) with
  | some p => p.2
  | none => d

/-- Final path component, `PurePath(fn).name`: the part after the last "/". -/
def pathBaseName (fn : String) : String :=
  String.mk ((fn.toList.reverse.takeWhile (fun c => c != '/')).reverse)

/-- Python `PurePath(fn).suffix`: the extension of the final path component
starting at its last dot, or empty when that dot is leading, trailing or
absent. -/
def pathSuffix (fn : String) : String :=
  let name := (pathBaseName fn).toList
  let r := name.reverse.indexOf '.'
  if r < name.length then
    let i := name.length - 1 - r
    if 0 < i ∧ i < name.length - 1 then String.mk (name.drop i) else ""
  else ""

/-- Python `PurePath(fn).stem`: the final path component with `pathSuffix`
removed. -/
def pathStem (fn : String) : String :=
  let name := (pathBaseName fn).toList
  let r := name.reverse.indexOf '.'
  if r < name.length then
    let i := name.length - 1 - r
    if 0 < i ∧ i < name.length - 1 then String.mk (name.take i) else String.mk name
  else String.mk name

/-- Python `f"{amount:.2f}"` for a nonnegative float carrying at most two
decimal places, modelled exactly by its number of cents. -/
def format2f (cents : Nat) : String :=
  toString (cents / 100) ++ "." ++ (if cents % 100 < 10 then "0" else "")
    ++ toString (cents % 100)

/-- Python `str(int(amount))`: the amount truncated to a whole number of
dollars. -/
def intStr (cents : Nat) : String := toString (cents / 100)

/-! Data model, from `app/models/evidence.py`. -/

/-- ConfidenceLevel enum of `models/evidence.py`. -/
inductive ConfidenceLevel
  | HIGH
  | MEDIUM
  | NEEDS_REVIEW
deriving DecidableEq

/-- ExpenseItem of `models/evidence.py`; `amount` is the float amount in
cents. -/
structure ExpenseItem where
  vendor : String
  date : String
  amount : Nat
  category : String
  confidence : ConfidenceLevel
  source_file : String
  source_text : String
  document_type : String := ""
deriving DecidableEq

/-- DamageClaim of `models/evidence.py`. -/
structure DamageClaim where
  label : String
  detail : String
  confidence : ConfidenceLevel
  source_file : String
  source_text : String
  damage_type : Option String := none
  severity : Option String := none
deriving DecidableEq

/-- RenameEntry of `models/evidence.py`. -/
structure RenameEntry where
  original_filename : String
  recommended_filename : String
  confidence : ConfidenceLevel
deriving DecidableEq

/-- MissingEvidence of `models/evidence.py`. -/
structure MissingEvidence where
  item : String
  reason : String
deriving DecidableEq

/-- EvidenceExtractionResponse of `models/outputs.py` (the fields produced by
`extract_evidence`). -/
structure EvidenceExtractionResponse where
  expense_items : List ExpenseItem
  rename_map : List RenameEntry
  damage_claims : List DamageClaim
  missing_evidence : List MissingEvidence
deriving DecidableEq

/-! Requirement catalog, from `app/document_requirements.py`. -/

/-- DocumentRequirement of `document_requirements.py`. -/
structure DocumentRequirement where
  id : String
  name : String
  required_fields : List String
  date_range : String
  forms : String
  actionable_outcomes : String
deriving DecidableEq

/-- REQUIREMENT_MATCH_KEYWORDS of `document_requirements.py`. -/
def REQUIREMENT_MATCH_KEYWORDS : List (String × List String) :=
  [("lease", ["rent", "lease"]),
   ("insurance", ["insurance"]),
   ("payroll", ["payroll"]),
   ("utility", ["utilities", "utility"]),
   ("damage_photos", ["damage"]),
   ("bank_statements", ["bank", "statement"]),
   ("tax_returns", ["tax"]),
   ("business_license", ["license", "registration"])]

/-- Python `REQUIREMENT_MATCH_KEYWORDS.get(id, [id])`. -/
def keywordsFor (id : String) : List String :=
  match REQUIREMENT_MATCH_KEYWORDS.find? (fun p => p.1 == id) with
  | some p => p.2
  | none => [id]

/-- DOCUMENT_REQUIREMENTS of `document_requirements.py`, in source order. -/
def DOCUMENT_REQUIREMENTS : List DocumentRequirement :=
  [{ id := "lease",
     name := "Lease agreement or rent statement",
     required_fields := ["lessor name", "property address", "monthly rent",
       "current period"],
     date_range := "Current lease term or latest statement",
     forms := "None",
     actionable_outcomes := "Landlord forbearance letter; SBA loan rent verification; FEMA/SBA documentation." },
   { id := "insurance",
     name := "Insurance policy or declaration page",
     required_fields := ["carrier", "policy number", "coverage period",
       "property address"],
     date_range := "Current policy period",
     forms := "None",
     actionable_outcomes := "Insurance claim; SBA loan verification of coverage." },
   { id := "payroll",
     name := "Payroll records (last 3 months)",
     required_fields := ["employer name", "pay period", "gross pay",
       "employee count or list"],
     date_range := "Last 3 months",
     forms := "None",
     actionable_outcomes := "SBA disaster loan application; proof of payroll expense." },
   { id := "utility",
     name := "Utility bills (recent)",
     required_fields := ["provider", "account or address", "amount due",
       "service period"],
     date_range := "Recent (e.g. last 2 months)",
     forms := "None",
     actionable_outcomes := "Utility waiver request; expense documentation." },
   { id := "damage_photos",
     name := "Damage photographs",
     required_fields := [],
     date_range := "Date of photo if visible",
     forms := "None",
     actionable_outcomes := "Visual evidence for insurance and FEMA claims." },
   { id := "bank_statements",
     name := "Bank statements (last 3 months)",
     required_fields := ["institution", "account type", "period",
       "ending balance"],
     date_range := "Last 3 months",
     forms := "None",
     actionable_outcomes := "SBA loan and financial verification." },
   { id := "tax_returns",
     name := "Tax returns (most recent year)",
     required_fields := ["tax year", "form type (e.g. 1040, 1120)",
       "key totals"],
     date_range := "Most recent tax year",
     forms := "IRS 1040, 1120, or equivalent",
     actionable_outcomes := "SBA disaster loan application." },
   { id := "business_license",
     name := "Business license or registration",
     required_fields := ["entity name", "jurisdiction", "validity date"],
     date_range := "Current",
     forms := "None",
     actionable_outcomes := "Proof of business operation for relief applications." }]

/-! Schema-validated model gateway, from `app/services/llm_client.py`. -/

/-- The settings fields consulted by `complete_json` when selecting a
backend (`config.py`). -/
structure GatewaySettings where
  llm_provider : String
  commonstack_api_key : String
deriving DecidableEq

/-- Failure of one structured-completion attempt: the exception types caught
by the retry loops of `llm_client.py` (pydantic ValidationError,
json.JSONDecodeError, ValueError). -/
inductive VErr
  | validationError (msg : String)
  | jsonDecodeError (msg : String)
  | valueError (msg : String)
deriving DecidableEq

/-- The retry loop shared by `_commonstack_complete_json` (llm_client.py
lines 116-170) and the Gemini path of `complete_json` (lines 238-271):
`for attempt in range(1 + max_retries)` runs attempts `i, i+1, ...` while
`remaining` fuel is left, remembering the last caught error; a successful
attempt returns at once, and exhausting the range re-raises the last error
(`none` models the pathological `raise None` when no attempt ran). The
returned number is the next unused attempt index, i.e. how many attempts
were made. -/
def jsonAttemptLoop {α : Type} (oracle : Nat → Except VErr α) :
    Nat → Nat → Option VErr → Except (Option VErr) α × Nat
  | 0, i, last => (.error last, i)
  | n + 1, i, last =>
    match oracle i with
    | .ok v => (.ok v, i + 1)
    | .error e => jsonAttemptLoop oracle n (i + 1) (some e)

/-- CommonStack structured completion, `_commonstack_complete_json`: the
outcome of each attempt (HTTP call, JSON extraction, schema validation) is
supplied by `oracle`. -/
def _commonstack_complete_json {α : Type} (oracle : Nat → Except VErr α)
    (max_retries : Nat) : Except (Option VErr) α × Nat :=
  jsonAttemptLoop oracle (1 + max_retries) 0 none

/-- Gemini structured completion: the retry loop on lines 238-271 of
`llm_client.py`, identical in shape to the CommonStack one. -/
def gemini_complete_json {α : Type} (oracle : Nat → Except VErr α)
    (max_retries : Nat) : Except (Option VErr) α × Nat :=
  jsonAttemptLoop oracle (1 + max_retries) 0 none

/-- Backend dispatch of `complete_json` (llm_client.py lines 207-271):
CommonStack when the provider is "commonstack" and its key is set, else
Gemini. -/
def complete_json {α : Type} (settings : GatewaySettings)
    (csOracle gemOracle : Nat → Except VErr α) (max_retries : Nat) :
    Except (Option VErr) α × Nat :=
  if settings.llm_provider = "commonstack" ∧ settings.commonstack_api_key ≠ "" then
    _commonstack_complete_json csOracle max_retries
  else
    gemini_complete_json gemOracle max_retries

/-! Text extractor, from `app/services/ocr.py`. -/

/-- Raw file content; the pipeline never inspects individual bytes. -/
abbrev Bytes := List Nat

/-- Environment of the OCR service: the availability flags set at import time
and the outcomes of the Tesseract and PyMuPDF calls. `imageOcr` models
`Image.open` + `pytesseract.image_to_string` (an error is any exception in
that block); `pdfRender` models `pymupdf.open` plus the per-page pixmap
rendering (an error is any exception in the `_ocr_pdf_bytes` try block). -/
structure OcrEnv where
  ocrAvailable : Bool
  pymupdfAvailable : Bool
  imageOcr : Bytes → Except Unit String
  pdfRender : Bytes → Except Unit (List Bytes)

/-- IMAGE_MIME_TYPES of `ocr.py`. -/
def IMAGE_MIME_TYPES : List String :=
  ["image/jpeg", "image/png", "image/webp", "image/gif"]

/-- PDF_MIME_TYPE of `ocr.py`. -/
def PDF_MIME_TYPE : String := "application/pdf"

/-- `_ocr_image_bytes` of `ocr.py`: empty when OCR is unavailable or the
engine raises, else the stripped engine text. -/
def _ocr_image_bytes (env : OcrEnv) (image_bytes : Bytes) : String :=
  if !env.ocrAvailable then ""
  else
    match env.imageOcr image_bytes with
    | .ok text => pyStrip text
    | .error _ => ""

/-- `_ocr_pdf_bytes` of `ocr.py`: render each page, OCR it, keep the non-empty
page texts with a page header, join with blank lines; any render failure
yields the empty string. -/
def _ocr_pdf_bytes (env : OcrEnv) (pdf_bytes : Bytes) : String :=
  if !env.pymupdfAvailable || !env.ocrAvailable then ""
  else
    match env.pdfRender pdf_bytes with
    | .ok pages =>
        pyJoin "\n\n" (pages.enum.filterMap (fun pg =>
          let page_text := _ocr_image_bytes env pg.2
          if page_text = "" then none
          else some ("[Page " ++ toString (pg.1 + 1) ++ "]\n" ++ page_text)))
    | .error _ => ""

/-- `extract_text` of `ocr.py` (lines 73-94). The `filename` argument is used
only for logging in the source. -/
def extract_text (env : OcrEnv) (filename : String) (file_bytes : Bytes)
    (mime_type : String) : String :=
  if !env.ocrAvailable && IMAGE_MIME_TYPES.contains mime_type then ""
  else if mime_type == PDF_MIME_TYPE && !env.pymupdfAvailable then ""
  else if IMAGE_MIME_TYPES.contains mime_type then _ocr_image_bytes env file_bytes
  else if mime_type == PDF_MIME_TYPE then _ocr_pdf_bytes env file_bytes
  else ""

/-! Evidence pipeline, from `app/services/evidence.py`. -/

/-- The two values of the pydantic `Literal["document", "photo"]`
classification field of `_FileClassEntry`. -/
inductive FileKind
  | document
  | photo
deriving DecidableEq

/-- An uploaded file, `(filename, file_bytes, mime_type)`. -/
abbrev PyFile := String × Bytes × String

/-- Python runtime errors that the evidence pipeline can raise past its
try/except blocks. -/
inductive PyErr
  | nameError (missing : String)
  | keyError
deriving DecidableEq

/-- Lines 86, 87 and 149 of `evidence.py` read the module-level name
`EVIDENCE_IMAGE_MIME_TYPES`. That name is neither defined nor imported in
any of the repository's 23 source files, so evaluating it in Python raises
`NameError`; the lookup is therefore embedded as this failing constant. -/
def EVIDENCE_IMAGE_MIME_TYPES : Except PyErr (List String) :=
  .error (.nameError "EVIDENCE_IMAGE_MIME_TYPES")

/-- Outcomes of the three kinds of `complete_json` calls issued by the
pipeline, after gateway retries: classification of the listed image
filenames, one batched expense extraction over the listed document
filenames, and one damage analysis per photo filename. The prompt text and
image payloads built by the source only shape the model's answer and are
absorbed into the oracle. -/
structure LLMEnv where
  classifyOracle : List String → Except VErr (List (String × FileKind))
  expensesOracle : List String → Except VErr (List ExpenseItem)
  damageOracle : String → Except VErr (List DamageClaim)

/-- Stable insertion of `a` into a list already sorted by `key`: `a` lands
after every element with a key less than or equal to its own. -/
def insertByKey {α : Type} (key : α → Nat) (a : α) : List α → List α
  | [] => [a]
  | b :: bs => if key a < key b then a :: b :: bs else b :: insertByKey key a bs

/-- Stable sort by a numeric key, as Python `list.sort(key=...)`. -/
def sortByKey {α : Type} (key : α → Nat) : List α → List α
  | [] => []
  | a :: as => insertByKey key a (sortByKey key as)

/-- The dict `{fn: i for i, (fn, _, _) in enumerate(files)}` of
`_classify_file_types`, looked up with `order.get(fn, 0)`: for duplicate
filenames the later index wins. -/
def orderIndex (files : List PyFile) (fn : String) : Nat :=
  match files.enum.reverse.find? (fun p => p.2.1 == fn) with
  | some p => p.1
  | none => 0

/-- The dict `{e.filename: e.type for e in classification.entries}` looked up
with default "document". -/
def typeByFilename (entries : List (String × FileKind)) (fn : String) : FileKind :=
  match entries.reverse.find? (fun p => p.1 == fn) with
  | some p => p.2
  | none => .document

/-- `_classify_file_types` of `evidence.py` (lines 78-120). The comprehensions
on lines 86-87 evaluate `EVIDENCE_IMAGE_MIME_TYPES` before the try block, so
for a non-empty file list the function raises `NameError` before reaching the
gateway; the remainder of the body is embedded faithfully behind that bind. -/
def _classify_file_types (env : LLMEnv) (files : List PyFile) :
    Except PyErr (List (String × FileKind)) :=
  if files.isEmpty then .ok []
  else do
    let mimes ← EVIDENCE_IMAGE_MIME_TYPES
    let image_files := files.filter (fun f => mimes.contains f.2.2)
    let non_image_filenames :=
      (files.filter (fun f => !mimes.contains f.2.2)).map (fun f => f.1)
    if image_files.isEmpty then
      return files.map (fun f => (f.1, FileKind.document))
    else
      let filenames_order := image_files.map (fun f => f.1)
      let result :=
        match env.classifyOracle filenames_order with
        | .ok entries =>
            filenames_order.map (fun fn => (fn, typeByFilename entries fn))
        | .error _ => filenames_order.map (fun fn => (fn, FileKind.document))
      let result := result ++ non_image_filenames.map (fun fn => (fn, FileKind.document))
      return sortByKey (fun p => orderIndex files p.1) result

/-- `_extract_expenses_from_documents` of `evidence.py` (lines 222-251): one
batched gateway call, with every caught failure degrading to the empty
list. -/
def _extract_expenses_from_documents (env : LLMEnv) (document_files : List PyFile) :
    List ExpenseItem :=
  if document_files.isEmpty then []
  else
    match env.expensesOracle (document_files.map (fun f => f.1)) with
    | .ok raw => raw
    | .error _ => []

/-- `_extract_damage_from_photos` of `evidence.py` (lines 142-161): one call
per photo, each failure caught per file; the membership test on line 149
evaluates the undefined `EVIDENCE_IMAGE_MIME_TYPES` outside the try block. -/
def _extract_damage_from_photos (env : LLMEnv) (photo_files : List PyFile) :
    Except PyErr (List DamageClaim) :=
  photo_files.foldlM (fun claims f => do
    let mimes ← EVIDENCE_IMAGE_MIME_TYPES
    if !mimes.contains f.2.2 then
      return claims
    else
      match env.damageOracle f.1 with
      | .ok result => return claims ++ result
      | .error _ => return claims) []

/-- The expression `Path(fn).suffix.lower() or ".jpg"` of
`_generate_rename_map`. -/
def renameExt (fn : String) : String :=
  let s := pyLower (pathSuffix fn)
  if s = "" then ".jpg" else s

/-- The f-string `receipt_{vendor_clean}_{date_clean}_{amount:.2f}{ext}` of
`_generate_rename_map`. -/
def receiptFilename (e : ExpenseItem) (ext : String) : String :=
  "receipt_" ++ pyTake 20 (underscoreNonAlnum (pyLower e.vendor)) ++ "_"
    ++ pyTake 10 (pyReplaceChar ' ' "" (pyReplaceChar '/' "-" e.date)) ++ "_"
    ++ format2f e.amount ++ ext

/-- The f-string `damage_{label_clean}{ext}` of `_generate_rename_map`. -/
def damageFilename (d : DamageClaim) (ext : String) : String :=
  "damage_" ++ pyTake 30 (underscoreNonAlnum (pyLower d.label)) ++ ext

/-- Loop body of `_generate_rename_map` (lines 262-292): the entry produced
for one input filename. -/
def renameEntryFor (expense_items : List ExpenseItem) (damage_claims : List DamageClaim)
    (fn : String) : RenameEntry :=
  let ext := renameExt fn
  match expense_items.filter (fun e => e.source_file == fn) with
  | e :: _ =>
      { original_filename := fn, recommended_filename := receiptFilename e ext,
        confidence := e.confidence }
  | [] =>
      match damage_claims.filter (fun d => d.source_file == fn) with
      | d :: _ =>
          { original_filename := fn, recommended_filename := damageFilename d ext,
            confidence := d.confidence }
      | [] =>
          { original_filename := fn,
            recommended_filename := "evidence_" ++ pathStem fn ++ renameExt fn,
            confidence := ConfidenceLevel.NEEDS_REVIEW }

/-- `_generate_rename_map` of `evidence.py` (lines 254-294). -/
def _generate_rename_map (filenames : List String) (expense_items : List ExpenseItem)
    (damage_claims : List DamageClaim) : List RenameEntry :=
  filenames.map (renameEntryFor expense_items damage_claims)

/-- `_normalize_amount_for_ocr` of `evidence.py`: format to two decimals, then
strip trailing zeros, then a trailing dot. -/
def _normalize_amount_for_ocr (amount : Nat) : String :=
  pyRStrip ['.'] (pyRStrip ['0'] (format2f amount))

/-- `_normalize_date_for_ocr` of `evidence.py`: the literal date, its
digits-only form when non-empty, and its leading and trailing four digits
when it has at least six. -/
def _normalize_date_for_ocr (date : String) : List String :=
  let digits := onlyDigits date
  let out := [date]
  let out := if digits ≠ "" then out ++ [digits] else out
  if 6 ≤ digits.length then out ++ [pyTake 4 digits, pyTakeLast 4 digits] else out

/-- `_anchor_expense_to_ocr` of `evidence.py` (lines 316-345). In the source
this function is defined but never called from `extract_evidence` or
anywhere else. -/
def _anchor_expense_to_ocr (item : ExpenseItem)
    (file_ocr_texts : List (String × String)) : ExpenseItem :=
  let ocr_text := dictGetD file_ocr_texts item.source_file ""
  if ocr_text = "" then
    { item with confidence := ConfidenceLevel.NEEDS_REVIEW,
                source_text := "No OCR text for this file; needs review." }
  else
    let amount_str := _normalize_amount_for_ocr item.amount
    let amount_found := pyIn amount_str ocr_text || pyIn (intStr item.amount) ocr_text
    let date_variants := _normalize_date_for_ocr item.date
    let date_found := date_variants.any (fun v => !(v == "") && pyIn v ocr_text)
    if amount_found && date_found then item
    else
      { item with confidence := ConfidenceLevel.NEEDS_REVIEW,
                  source_text := "Amount/date not found in OCR; needs review." }

/-- The `found_categories` set of `_detect_missing_evidence`: the lowercased
category of every expense, its lowercased document_type when non-empty, and
"damage" when any damage claim exists (membership-equivalent list model of
the Python set). -/
def foundCategories (expense_items : List ExpenseItem)
    (damage_claims : List DamageClaim) : List String :=
  (expense_items.flatMap (fun e =>
    [pyLower e.category]
      ++ (if e.document_type ≠ "" then [pyLower e.document_type] else [])))
    ++ (if damage_claims.isEmpty then [] else ["damage"])

/-- `_detect_missing_evidence` of `evidence.py` (lines 348-378). -/
def _detect_missing_evidence (expense_items : List ExpenseItem)
    (damage_claims : List DamageClaim) (filenames : List String) :
    List MissingEvidence :=
  let found_categories := foundCategories expense_items damage_claims
  let fn_lower := pyJoin " " (filenames.map pyLower)
  DOCUMENT_REQUIREMENTS.foldl (fun missing req =>
    let keywords := keywordsFor req.id
    let found := keywords.any (fun kw =>
      found_categories.contains kw || pyIn kw fn_lower)
    if found then missing
    else missing ++ [{ item := req.name, reason := req.actionable_outcomes }]) []

/-- The dict access `file_by_name[fn]` of `extract_evidence` (the dict maps
each filename to its tuple, a later duplicate winning); a missing key raises
`KeyError`. -/
def fileByName (files : List PyFile) (fn : String) : Except PyErr PyFile :=
  match files.reverse.find? (fun f => f.1 == fn) with
  | some f => .ok f
  | none => .error .keyError

/-- `extract_evidence` of `evidence.py` (lines 381-445). The optional context
strings (business_type, county, state, disaster_id, declaration_title) only
enter the prompts and are absorbed into the oracle. Note that the body never
computes OCR text and never calls `_anchor_expense_to_ocr`. -/
def extract_evidence (env : LLMEnv) (files : List PyFile) :
    Except PyErr EvidenceExtractionResponse :=
  if files.isEmpty then
    .ok { expense_items := [], rename_map := [], damage_claims := [],
          missing_evidence := DOCUMENT_REQUIREMENTS.map (fun req =>
            { item := req.name, reason := req.actionable_outcomes }) }
  else do
    let filenames := files.map (fun f => f.1)
    let classification ← _classify_file_types env files
    let document_files ←
      (classification.filter (fun p => p.2 == FileKind.document)).mapM
        (fun p => fileByName files p.1)
    let photo_files ←
      (classification.filter (fun p => p.2 == FileKind.photo)).mapM
        (fun p => fileByName files p.1)
    let expense_items := _extract_expenses_from_documents env document_files
    let damage_claims ← _extract_damage_from_photos env photo_files
    let rename_map := _generate_rename_map filenames expense_items damage_claims
    let missing_evidence := _detect_missing_evidence expense_items damage_claims filenames
    return { expense_items := expense_items, rename_map := rename_map,
             damage_claims := damage_claims, missing_evidence := missing_evidence }

/-! Concrete scenarios used by the theorems below. -/

/-- A HIGH-confidence expense whose amount 99.99 does not occur in the OCR
text of `sampleOcr`. -/
def sampleExpense : ExpenseItem :=
  { vendor := "Acme Hardware", date := "2024-01-15", amount := 9999,
    category := "supplies", confidence := ConfidenceLevel.HIGH,
    source_file := "receipt.jpg", source_text := "Total 99.99" }

/-- OCR text map for `receipt.jpg` taken from the specification's anchoring
example. -/
def sampleOcr : List (String × String) :=
  [("receipt.jpg", "Total: $45.00 on 2024-01-15")]

/-- A fully co-operative gateway: classification answers "document" for every
file, expense extraction returns `sampleExpense`, damage analysis returns
nothing. -/
def sampleEnv : LLMEnv :=
  { classifyOracle := fun fns => .ok (fns.map (fun fn => (fn, FileKind.document))),
    expensesOracle := fun _ => .ok [sampleExpense],
    damageOracle := fun _ => .ok [] }

/-- Expense with amount 45.0, used for the under-verification example: the
integer rendering "45" occurs in OCR text containing "450". -/
def exAmount45 : ExpenseItem :=
  { vendor := "Shop", date := "2024-01-15", amount := 4500,
    category := "supplies", confidence := ConfidenceLevel.HIGH,
    source_file := "r1.jpg", source_text := "450" }

/-- OCR map whose text contains "450" (but not a standalone "45") and the
matching date. -/
def exOcr450 : List (String × String) :=
  [("r1.jpg", "Paid 450 on 2024-01-15")]

/-- Expense used by the C6 witness. -/
def c6Expense : ExpenseItem :=
  { vendor := "Joe's Cafe", date := "2024/01/15", amount := 15000,
    category := "rent", confidence := ConfidenceLevel.MEDIUM,
    source_file := "a.jpg", source_text := "rent 150.00" }

/-- Expense used by the C4 witness: its source file has no OCR text. -/
def c4Expense : ExpenseItem :=
  { vendor := "V", date := "2024-01-15", amount := 4500,
    category := "repairs", confidence := ConfidenceLevel.MEDIUM,
    source_file := "a.jpg", source_text := "450" }

/-- OCR environment in which both engines are installed but every engine call
fails. -/
def c9FailEnv : OcrEnv :=
  { ocrAvailable := true, pymupdfAvailable := true,
    imageOcr := fun _ => .error (), pdfRender := fun _ => .error () }

/-! Helper lemmas about the Python string primitives. -/

/-- A list is an initial segment of itself followed by anything. -/
theorem listPre_append (x y : List Char) : listPre x (x ++ y) = true := by
  induction x with
  | nil => rfl
  | cons c cs ih => simp [listPre, ih]

/-- Reflexivity of the initial-segment test. -/
theorem listPre_refl (l : List Char) : listPre l l = true := by
  simpa using listPre_append l []

/-- Every string is a Python substring of itself. -/
theorem pyIn_refl (s : String) : pyIn s s = true := by
  unfold pyIn
  cases h : s.toList with
  | nil => rfl
  | cons c cs => simp [listSub, listPre_refl]

/-- String concatenation appends the character lists. -/
theorem toList_append (a b : String) : (a ++ b).toList = a.toList ++ b.toList :=
  String.data_append a b

/-- A string obtained by appending `b` ends with `b`. -/
theorem pyEndsWith_append (a b : String) : pyEndsWith (a ++ b) b = true := by
  unfold pyEndsWith
  rw [toList_append, List.reverse_append]
  exact listPre_append _ _

/-! Theorems for the claims. -/

/-- C7: with an empty file list, `extract_evidence` returns empty
`expense_items`, `rename_map` and `damage_claims`, and a `missing_evidence`
list holding exactly one entry per catalog requirement — its display name
paired with its actionable-outcome text — hence exactly 8 entries. -/
theorem c7_empty_input (env : LLMEnv) :
    extract_evidence env [] =
      .ok { expense_items := [], rename_map := [], damage_claims := [],
            missing_evidence := DOCUMENT_REQUIREMENTS.map (fun req =>
              { item := req.name, reason := req.actionable_outcomes }) }
    ∧ (DOCUMENT_REQUIREMENTS.map (fun req =>
        ({ item := req.name, reason := req.actionable_outcomes } : MissingEvidence))).length
        = DOCUMENT_REQUIREMENTS.length
    ∧ DOCUMENT_REQUIREMENTS.length = 8 :=
  ⟨rfl, List.length_map _ _, rfl⟩

/-- C2 (code bug): for every non-empty input list, `extract_evidence` raises
`NameError` — the list comprehension on line 86 of evidence.py reads the
undefined module name `EVIDENCE_IMAGE_MIME_TYPES` before any degraded path
can apply — so the pipeline never returns a response for a well-formed,
within-limits, non-empty input set. -/
theorem c2_extract_evidence_raises_nameerror (env : LLMEnv) (f : PyFile)
    (rest : List PyFile) :
    extract_evidence env (f :: rest) = .error (.nameError "EVIDENCE_IMAGE_MIME_TYPES") :=
  rfl

/-- C3 (code bug): `_classify_file_types` returns the empty classification for
an empty input, but for every non-empty input it raises `NameError` on the
undefined `EVIDENCE_IMAGE_MIME_TYPES` before the model call and its fallback
can run, so it never produces one (filename, type) pair per file. -/
theorem c3_classify_file_types_raises_nameerror (env : LLMEnv) (f : PyFile)
    (rest : List PyFile) :
    _classify_file_types env (f :: rest) = .error (.nameError "EVIDENCE_IMAGE_MIME_TYPES")
    ∧ _classify_file_types env [] = .ok [] :=
  ⟨rfl, rfl⟩

/-- C1 (code bug): the pipeline does not apply OCR anchoring to extracted
expenses. On a single-document input whose gateway would return a
HIGH-confidence expense with amount 99.99 unsupported by the file's OCR text,
`extract_evidence` produces no anchored response at all — it raises
`NameError` (and its body contains no call to `_anchor_expense_to_ocr` and
computes no OCR text) — while the anchoring validator, had it been applied,
would have forced that expense to NEEDS_REVIEW. -/
theorem c1_anchoring_not_applied :
    extract_evidence sampleEnv [("receipt.jpg", [], "image/jpeg")] =
        .error (.nameError "EVIDENCE_IMAGE_MIME_TYPES")
    ∧ (_anchor_expense_to_ocr sampleExpense sampleOcr).confidence
        = ConfidenceLevel.NEEDS_REVIEW
    ∧ sampleExpense.confidence = ConfidenceLevel.HIGH :=
  ⟨rfl, rfl, rfl⟩

/-- Retry loop exhaustion: when every attempt in the remaining range fails,
the loop makes exactly the remaining number of attempts and returns the error
of the last one. -/
theorem jsonAttemptLoop_all_fail {α : Type} (oracle : Nat → Except VErr α)
    (errs : Nat → VErr) :
    ∀ (n i : Nat) (last : Option VErr),
      (∀ j, j < i + (n + 1) → oracle j = .error (errs j)) →
      jsonAttemptLoop oracle (n + 1) i last = (.error (some (errs (i + n))), i + (n + 1)) := by
  intro n
  induction n with
  | zero =>
    intro i last h
    have hi : oracle i = .error (errs i) := h i (by omega)
    simp [jsonAttemptLoop, hi]
  | succ n ih =>
    intro i last h
    have hi : oracle i = .error (errs i) := h i (by omega)
    have step : jsonAttemptLoop oracle (n + 1 + 1) i last
        = jsonAttemptLoop oracle (n + 1) (i + 1) (some (errs i)) := by
      simp [jsonAttemptLoop, hi]
    rw [step, ih (i + 1) (some (errs i)) (fun j hj => h j (by omega))]
    have h1 : i + 1 + n = i + (n + 1) := by omega
    have h2 : i + 1 + (n + 1) = i + (n + 1 + 1) := by omega
    rw [h1, h2]

/-- C5: when every attempt of the structured-completion gateway fails JSON
parsing or schema validation, `complete_json` (whichever backend the settings
select, both loops being `for attempt in range(1 + max_retries)`) makes
exactly `1 + max_retries` attempts — the returned counter — and then raises
the error of the last attempt. -/
theorem c5_retry_bound {α : Type} (settings : GatewaySettings)
    (oracle : Nat → Except VErr α) (max_retries : Nat) (errs : Nat → VErr)
    (h : ∀ j, j ≤ max_retries → oracle j = .error (errs j)) :
    complete_json settings oracle oracle max_retries =
      (.error (some (errs max_retries)), 1 + max_retries) := by
  have key : jsonAttemptLoop oracle (1 + max_retries) 0 none
      = (.error (some (errs max_retries)), 1 + max_retries) := by
    have := jsonAttemptLoop_all_fail oracle errs max_retries 0 none
      (fun j hj => h j (by omega))
    simpa [Nat.add_comm] using this
  unfold complete_json _commonstack_complete_json gemini_complete_json
  split <;> exact key

/-- Witness for C5: with both oracles failing at every attempt and
`max_retries = 1`, the gateway makes 2 attempts and raises the second error. -/
theorem c5_retry_bound_witness :
    complete_json { llm_provider := "commonstack", commonstack_api_key := "k" }
      (fun j => (.error (.valueError (toString j)) : Except VErr Nat))
      (fun j => (.error (.valueError (toString j)) : Except VErr Nat)) 1
      = (.error (some (.valueError "1")), 2) :=
  c5_retry_bound { llm_provider := "commonstack", commonstack_api_key := "k" }
    (fun j => (.error (.valueError (toString j)) : Except VErr Nat)) 1
    (fun j => .valueError (toString j)) (fun j _ => rfl)

/-- C4: behaviour of the anchoring validator. With no (or empty) OCR text for
the item's source file the item comes back with confidence forced to
NEEDS_REVIEW and the no-OCR sentinel source_text; with OCR text present the
item is returned unchanged when the trimmed decimal rendering of the amount
or its bare truncated-integer string occurs in the text and some non-empty
date variant occurs, and otherwise comes back with NEEDS_REVIEW and the fixed
not-found sentinel, all other fields unchanged; in particular amount 45.0 is
accepted against OCR text containing "450". -/
theorem c4_anchor_behaviour (item : ExpenseItem) (m : List (String × String)) :
    (dictGetD m item.source_file "" = "" →
      _anchor_expense_to_ocr item m =
        { item with confidence := ConfidenceLevel.NEEDS_REVIEW,
                    source_text := "No OCR text for this file; needs review." })
    ∧ (dictGetD m item.source_file "" ≠ "" →
        (pyIn (_normalize_amount_for_ocr item.amount) (dictGetD m item.source_file "")
          || pyIn (intStr item.amount) (dictGetD m item.source_file "")) = true →
        ((_normalize_date_for_ocr item.date).any (fun v =>
          !(v == "") && pyIn v (dictGetD m item.source_file ""))) = true →
        _anchor_expense_to_ocr item m = item)
    ∧ (dictGetD m item.source_file "" ≠ "" →
        ((pyIn (_normalize_amount_for_ocr item.amount) (dictGetD m item.source_file "")
            || pyIn (intStr item.amount) (dictGetD m item.source_file "")) = false ∨
         ((_normalize_date_for_ocr item.date).any (fun v =>
            !(v == "") && pyIn v (dictGetD m item.source_file ""))) = false) →
        _anchor_expense_to_ocr item m =
          { item with confidence := ConfidenceLevel.NEEDS_REVIEW,
                      source_text := "Amount/date not found in OCR; needs review." })
    ∧ _anchor_expense_to_ocr exAmount45 exOcr450 = exAmount45 := by
  refine ⟨?_, ?_, ?_, rfl⟩
  · intro h
    simp [_anchor_expense_to_ocr, h]
  · intro hne hamount hdate
    simp [_anchor_expense_to_ocr, hne, hamount, hdate]
  · intro hne hfail
    rcases hfail with hfail | hfail <;>
      simp [_anchor_expense_to_ocr, hne, hfail]

/-- Witness for C4: an expense whose source file has no OCR entry is forced to
NEEDS_REVIEW with the no-OCR sentinel. -/
theorem c4_anchor_behaviour_witness :
    _anchor_expense_to_ocr c4Expense [] =
      { c4Expense with confidence := ConfidenceLevel.NEEDS_REVIEW,
                       source_text := "No OCR text for this file; needs review." } :=
  (c4_anchor_behaviour c4Expense []).1 rfl

/-- Per-filename description of the rename-map loop body: the entry keeps the
input filename and its recommended name ends with the computed extension. -/
theorem renameEntryFor_spec (es : List ExpenseItem) (ds : List DamageClaim)
    (fn : String) :
    (renameEntryFor es ds fn).original_filename = fn
    ∧ pyEndsWith (renameEntryFor es ds fn).recommended_filename (renameExt fn) = true := by
  unfold renameEntryFor
  cases hE : es.filter (fun e => e.source_file == fn) with
  | cons e tail => exact ⟨rfl, pyEndsWith_append _ _⟩
  | nil =>
    cases hD : ds.filter (fun d => d.source_file == fn) with
    | cons d tail => exact ⟨rfl, pyEndsWith_append _ _⟩
    | nil => exact ⟨rfl, pyEndsWith_append _ _⟩

/-- C10: every rename entry's recommended filename ends with the original
filename's lowercased extension, `.jpg` standing in when the original has
none — irrespective of the file's actual type, so the extensionless name
"scan" becomes "evidence_scan.jpg" and an upper-case ".PDF" extension is
kept lowercased. -/
theorem c10_rename_extension (filenames : List String)
    (expense_items : List ExpenseItem) (damage_claims : List DamageClaim) :
    (∀ entry ∈ _generate_rename_map filenames expense_items damage_claims,
      pyEndsWith entry.recommended_filename (renameExt entry.original_filename) = true)
    ∧ _generate_rename_map ["scan"] [] [] =
        [{ original_filename := "scan", recommended_filename := "evidence_scan.jpg",
           confidence := ConfidenceLevel.NEEDS_REVIEW }]
    ∧ renameExt "scan" = ".jpg"
    ∧ renameExt "Receipt.PDF" = ".pdf" := by
  refine ⟨?_, rfl, rfl, by decide⟩
  intro entry hmem
  rw [_generate_rename_map] at hmem
  obtain ⟨fn, hfn, hentry⟩ := List.mem_map.mp hmem
  have h := renameEntryFor_spec expense_items damage_claims fn
  rw [← hentry, h.1]
  exact h.2

/-- Witness for C10: the entry produced for the extensionless file "scan"
ends with ".jpg". -/
theorem c10_rename_extension_witness :
    pyEndsWith "evidence_scan.jpg" (renameExt "scan") = true :=
  (c10_rename_extension ["scan"] [] []).1
    { original_filename := "scan", recommended_filename := "evidence_scan.jpg",
      confidence := ConfidenceLevel.NEEDS_REVIEW }
    (by decide)

/-- C6: the rename map has exactly one entry per input filename, in input
order (so its originals, as a list and hence as a set, are the input
filenames); a file matched by no expense item and no damage claim gets the
generic `evidence_<stem>` name with NEEDS_REVIEW confidence, and a file
matched by expense items takes its name and confidence from the first
matching item. -/
theorem c6_rename_map_props (filenames : List String)
    (expense_items : List ExpenseItem) (damage_claims : List DamageClaim)
    (hnd : filenames.Nodup) :
    ((_generate_rename_map filenames expense_items damage_claims).length
        = filenames.length)
    ∧ ((_generate_rename_map filenames expense_items damage_claims).map
        (fun r => r.original_filename) = filenames)
    ∧ (∀ fn ∈ filenames,
        expense_items.filter (fun e => e.source_file == fn) = [] →
        damage_claims.filter (fun d => d.source_file == fn) = [] →
        ({ original_filename := fn,
           recommended_filename := "evidence_" ++ pathStem fn ++ renameExt fn,
           confidence := ConfidenceLevel.NEEDS_REVIEW } : RenameEntry)
          ∈ _generate_rename_map filenames expense_items damage_claims)
    ∧ (∀ fn ∈ filenames, ∀ (e : ExpenseItem) (tail : List ExpenseItem),
        expense_items.filter (fun eI => eI.source_file == fn) = e :: tail →
        ({ original_filename := fn,
           recommended_filename := receiptFilename e (renameExt fn),
           confidence := e.confidence } : RenameEntry)
          ∈ _generate_rename_map filenames expense_items damage_claims)
    ∧ (∀ fn ∈ filenames, ∀ (d : DamageClaim) (tail : List DamageClaim),
        expense_items.filter (fun e => e.source_file == fn) = [] →
        damage_claims.filter (fun dI => dI.source_file == fn) = d :: tail →
        ({ original_filename := fn,
           recommended_filename := damageFilename d (renameExt fn),
           confidence := d.confidence } : RenameEntry)
          ∈ _generate_rename_map filenames expense_items damage_claims) := by
  refine ⟨List.length_map _ _, ?_, ?_, ?_, ?_⟩
  · rw [_generate_rename_map, List.map_map]
    have : ∀ fn ∈ filenames,
        ((fun r => r.original_filename) ∘ renameEntryFor expense_items damage_claims) fn
          = id fn := fun fn _ => (renameEntryFor_spec expense_items damage_claims fn).1
    rw [List.map_congr_left this, List.map_id]
  · intro fn hfn hE hD
    rw [_generate_rename_map]
    apply List.mem_map.mpr
    refine ⟨fn, hfn, ?_⟩
    unfold renameEntryFor
    rw [hE, hD]
  · intro fn hfn e tail hE
    rw [_generate_rename_map]
    apply List.mem_map.mpr
    refine ⟨fn, hfn, ?_⟩
    unfold renameEntryFor
    rw [hE]
  · intro fn hfn d tail hE hD
    rw [_generate_rename_map]
    apply List.mem_map.mpr
    refine ⟨fn, hfn, ?_⟩
    unfold renameEntryFor
    rw [hE, hD]

/-- Witness for C6: on the two-file input with one expense matching "a.jpg",
the first-match entry for "a.jpg" is in the rename map. -/
theorem c6_rename_map_props_witness :
    ({ original_filename := "a.jpg",
       recommended_filename := receiptFilename c6Expense (renameExt "a.jpg"),
       confidence := c6Expense.confidence } : RenameEntry)
      ∈ _generate_rename_map ["a.jpg", "b.png"] [c6Expense] [] :=
  (c6_rename_map_props ["a.jpg", "b.png"] [c6Expense] [] (by decide)).2.2.2.1
    "a.jpg" (by decide) c6Expense [] (by decide)

/-- C9: the text extractor is total and degrades to the empty string — an
unsupported MIME type, a failing image-OCR engine call, a failing PDF
open/render, or an absent OCR dependency each yield "". -/
theorem c9_extract_text_degrades (env : OcrEnv) (filename : String)
    (file_bytes : Bytes) (mime_type : String) :
    (mime_type ∉ IMAGE_MIME_TYPES → mime_type ≠ PDF_MIME_TYPE →
      extract_text env filename file_bytes mime_type = "")
    ∧ (mime_type ∈ IMAGE_MIME_TYPES →
        env.imageOcr file_bytes = .error () →
        extract_text env filename file_bytes mime_type = "")
    ∧ (mime_type = PDF_MIME_TYPE → env.pdfRender file_bytes = .error () →
        extract_text env filename file_bytes mime_type = "")
    ∧ (env.ocrAvailable = false →
        extract_text env filename file_bytes mime_type = "") := by
  refine ⟨?_, ?_, ?_, ?_⟩
  · intro hmem hpdf
    simp [extract_text, hmem, hpdf]
  · intro hmem herr
    have hne : mime_type ≠ PDF_MIME_TYPE := by
      intro h
      rw [h] at hmem
      exact absurd hmem (by decide)
    cases hocr : env.ocrAvailable with
    | false => simp [extract_text, hocr, hmem]
    | true => simp [extract_text, _ocr_image_bytes, hocr, hmem, hne, herr]
  · intro hpdf herr
    subst hpdf
    have hnm : PDF_MIME_TYPE ∉ IMAGE_MIME_TYPES := by decide
    cases hocr : env.ocrAvailable with
    | false =>
      cases hpm : env.pymupdfAvailable with
      | false => simp [extract_text, hocr, hpm, hnm]
      | true => simp [extract_text, _ocr_pdf_bytes, hocr, hpm, hnm]
    | true =>
      cases hpm : env.pymupdfAvailable with
      | false => simp [extract_text, hocr, hpm, hnm]
      | true => simp [extract_text, _ocr_pdf_bytes, hocr, hpm, hnm, herr]
  · intro hocr
    by_cases hmem : mime_type ∈ IMAGE_MIME_TYPES
    · simp [extract_text, hmem, hocr]
    · by_cases hpdf : mime_type = PDF_MIME_TYPE
      · subst hpdf
        cases hpm : env.pymupdfAvailable with
        | true =>
          simp [extract_text, _ocr_pdf_bytes, hocr, hpm,
            (by decide : PDF_MIME_TYPE ∉ IMAGE_MIME_TYPES)]
        | false =>
          simp [extract_text, hocr, hpm,
            (by decide : PDF_MIME_TYPE ∉ IMAGE_MIME_TYPES)]
      · simp [extract_text, hmem, hpdf, hocr]

/-- Witness for C9: with failing engines, an unsupported type, a corrupt
image and an unopenable PDF all yield the empty string. -/
theorem c9_extract_text_degrades_witness :
    extract_text c9FailEnv "notes.txt" [] "text/plain" = ""
    ∧ extract_text c9FailEnv "scan.jpg" [] "image/jpeg" = ""
    ∧ extract_text c9FailEnv "doc.pdf" [] "application/pdf" = "" :=
  ⟨(c9_extract_text_degrades c9FailEnv "notes.txt" [] "text/plain").1 (by decide) (by decide),
   (c9_extract_text_degrades c9FailEnv "scan.jpg" [] "image/jpeg").2.1 (by decide) rfl,
   (c9_extract_text_degrades c9FailEnv "doc.pdf" [] "application/pdf").2.2.1 rfl rfl⟩

/-- An initial segment that reaches past a separator character contains it. -/
theorem listPre_cross (c : Char) :
    ∀ (n s t : List Char), listPre n (s ++ c :: t) = true →
      c ∈ n ∨ listPre n s = true
  | [], _, _, _ => Or.inr rfl
  | x :: n', [], t, h => by
    simp only [List.nil_append, listPre, Bool.and_eq_true, beq_iff_eq] at h
    exact Or.inl (h.1 ▸ List.mem_cons_self x n')
  | x :: n', y :: s', t, h => by
    simp only [List.cons_append, listPre, Bool.and_eq_true, beq_iff_eq] at h
    rcases listPre_cross c n' s' t h.2 with hc | hp
    · exact Or.inl (List.mem_cons_of_mem _ hc)
    · exact Or.inr (by simp [listPre, h.1, hp])

/-- A needle avoiding the separator character and both sides of a separated
concatenation does not occur in the concatenation. -/
theorem listSub_append_sep (c x : Char) (n' : List Char) (hc : c ∉ x :: n') :
    ∀ s t : List Char, listSub (x :: n') s = false → listSub (x :: n') t = false →
      listSub (x :: n') (s ++ c :: t) = false := by
  have hx : x ≠ c := fun h => hc (h ▸ List.mem_cons_self x n')
  intro s
  induction s with
  | nil =>
    intro t _ ht
    simp only [List.nil_append, listSub, Bool.or_eq_false_iff]
    refine ⟨?_, ht⟩
    simp [listPre, hx]
  | cons y s' ih =>
    intro t hs ht
    simp only [listSub, Bool.or_eq_false_iff] at hs
    simp only [List.cons_append, listSub, Bool.or_eq_false_iff]
    refine ⟨?_, ih t hs.2 ht⟩
    by_contra hcontra
    rw [Bool.not_eq_false] at hcontra
    rcases listPre_cross c (x :: n') (y :: s') t (by simpa using hcontra) with hmem | hpre
    · exact hc hmem
    · rw [hs.1] at hpre
      exact Bool.false_ne_true hpre

/-- A non-empty needle with no space that occurs in none of the parts does not
occur in their space-separated join. -/
theorem pyIn_join_sep (needle : String) (hne : needle.toList ≠ [])
    (hsp : ' ' ∉ needle.toList) :
    ∀ parts : List String, (∀ p ∈ parts, pyIn needle p = false) →
      pyIn needle (pyJoin " " parts) = false := by
  intro parts
  induction parts with
  | nil =>
    intro _
    unfold pyIn pyJoin
    cases hn : needle.toList with
    | nil => exact absurd hn hne
    | cons a as => rfl
  | cons s rest ih =>
    intro h
    cases rest with
    | nil => exact h s (by simp)
    | cons r rs =>
      have hJ : pyJoin " " (s :: r :: rs) = s ++ " " ++ pyJoin " " (r :: rs) := rfl
      have hlist : (s ++ " " ++ pyJoin " " (r :: rs)).toList
          = s.toList ++ ' ' :: (pyJoin " " (r :: rs)).toList := by
        rw [toList_append, toList_append, List.append_assoc]
        rfl
      rw [hJ]
      unfold pyIn
      rw [hlist]
      cases hn : needle.toList with
      | nil => exact absurd hn hne
      | cons a as =>
        apply listSub_append_sep
        · rw [← hn]; exact hsp
        · have hin := h s (by simp)
          unfold pyIn at hin
          rw [hn] at hin
          exact hin
        · have hin := ih (fun p hp => h p (List.mem_cons_of_mem s hp))
          unfold pyIn at hin
          rw [hn] at hin
          exact hin

/-- A fold that appends an image exactly when the flag is down equals the
mapped filter of the flag's complement. -/
theorem foldl_if_not_append {α β : Type} (p : α → Bool) (g : α → β) :
    ∀ (l : List α) (acc : List β),
      l.foldl (fun acc x => if p x then acc else acc ++ [g x]) acc
        = acc ++ (l.filter (fun x => !p x)).map g
  | [], acc => by simp
  | x :: xs, acc => by
    by_cases hp : p x = true
    · simp [List.foldl_cons, hp, foldl_if_not_append p g xs]
    · rw [Bool.not_eq_true] at hp
      simp [List.foldl_cons, hp, foldl_if_not_append p g xs]

/-- The missing-evidence detector as a filter of the catalog: a requirement is
reported exactly when no keyword matches, and the report carries its name and
actionable-outcome text. -/
theorem detect_missing_eq (es : List ExpenseItem) (ds : List DamageClaim)
    (fns : List String) :
    _detect_missing_evidence es ds fns
      = (DOCUMENT_REQUIREMENTS.filter (fun req =>
          !(keywordsFor req.id).any (fun kw =>
            (foundCategories es ds).contains kw
              || pyIn kw (pyJoin " " (fns.map pyLower))))).map
          (fun req =>
            { item := req.name, reason := req.actionable_outcomes }) := by
  have h0 : _detect_missing_evidence es ds fns
      = DOCUMENT_REQUIREMENTS.foldl (fun missing req =>
          if (keywordsFor req.id).any (fun kw =>
            (foundCategories es ds).contains kw
              || pyIn kw (pyJoin " " (fns.map pyLower))) then missing
          else missing ++ [{ item := req.name, reason := req.actionable_outcomes }])
          [] := rfl
  rw [h0]
  have h1 := foldl_if_not_append
    (fun req => (keywordsFor req.id).any (fun kw =>
      (foundCategories es ds).contains kw || pyIn kw (pyJoin " " (fns.map pyLower))))
    (fun req => ({ item := req.name, reason := req.actionable_outcomes } : MissingEvidence))
    DOCUMENT_REQUIREMENTS []
  simpa using h1

set_option maxHeartbeats 2000000 in
/-- The display names of the catalog's requirements are pairwise distinct. -/
theorem catalog_names_nodup :
    (DOCUMENT_REQUIREMENTS.map (fun r => r.name)).Nodup := by decide

/-- Membership characterization of the missing-evidence report for one
catalog requirement. -/
theorem detect_mem_iff (es : List ExpenseItem) (ds : List DamageClaim)
    (fns : List String) (req : DocumentRequirement)
    (hreq : req ∈ DOCUMENT_REQUIREMENTS) :
    ({ item := req.name, reason := req.actionable_outcomes } : MissingEvidence)
        ∈ _detect_missing_evidence es ds fns
      ↔ ∀ kw ∈ keywordsFor req.id,
          (foundCategories es ds).contains kw = false
          ∧ pyIn kw (pyJoin " " (fns.map pyLower)) = false := by
  rw [detect_missing_eq]
  constructor
  · intro hmem
    obtain ⟨r, hr, hr2⟩ := List.mem_map.mp hmem
    obtain ⟨hrcat, hrp⟩ := List.mem_filter.mp hr
    have hname : r.name = req.name := congrArg MissingEvidence.item hr2
    have hrr : r = req := List.inj_on_of_nodup_map catalog_names_nodup hrcat hreq hname
    subst hrr
    rw [Bool.not_eq_true'] at hrp
    intro kw hkw
    have hkwfail := List.any_eq_false.mp hrp kw hkw
    rw [Bool.not_eq_true, Bool.or_eq_false_iff] at hkwfail
    exact hkwfail
  · intro hcond
    apply List.mem_map.mpr
    refine ⟨req, List.mem_filter.mpr ⟨hreq, ?_⟩, rfl⟩
    rw [Bool.not_eq_true', List.any_eq_false]
    intro kw hkw
    rw [Bool.not_eq_true, Bool.or_eq_false_iff]
    exact hcond kw hkw

/-- If no expense's lowercased category or document type contains
"insurance", the found-categories set does not contain it. -/
theorem foundCategories_insurance_false (es : List ExpenseItem)
    (ds : List DamageClaim)
    (h1 : ∀ e ∈ es, pyIn "insurance" (pyLower e.category) = false
        ∧ pyIn "insurance" (pyLower e.document_type) = false) :
    (foundCategories es ds).contains "insurance" = false := by
  by_contra hcontra
  rw [Bool.not_eq_false, List.contains_iff_exists_mem_beq] at hcontra
  obtain ⟨a, ha, hab⟩ := hcontra
  have haeq : "insurance" = a := beq_iff_eq.mp hab
  subst haeq
  unfold foundCategories at ha
  rcases List.mem_append.mp ha with hflat | hdmg
  · obtain ⟨e, he, hin⟩ := List.mem_flatMap.mp hflat
    rcases List.mem_append.mp hin with hcat | hdoc
    · have : "insurance" = pyLower e.category := List.mem_singleton.mp hcat
      have hfalse := (h1 e he).1
      rw [← this, pyIn_refl] at hfalse
      exact absurd hfalse (by decide)
    · by_cases hdt : e.document_type ≠ ""
      · rw [if_pos hdt] at hdoc
        have : "insurance" = pyLower e.document_type := List.mem_singleton.mp hdoc
        have hfalse := (h1 e he).2
        rw [← this, pyIn_refl] at hfalse
        exact absurd hfalse (by decide)
      · rw [if_neg hdt] at hdoc
        exact absurd hdoc (List.not_mem_nil _)
  · by_cases hde : ds.isEmpty
    · rw [if_pos hde] at hdmg
      exact absurd hdmg (List.not_mem_nil _)
    · rw [if_neg hde] at hdmg
      have : "insurance" = "damage" := List.mem_singleton.mp hdmg
      exact absurd this (by decide)

/-- C8: a MissingEvidence entry for a catalog requirement is emitted exactly
when none of its keywords is a member of the found-categories set (lowercase
categories and document types of expenses, plus "damage" when any damage
claim exists) nor a substring of the space-joined lowercase filenames; in
particular with no expense whose category or document type contains
"insurance" and no filename containing it, the report contains the entry
named "Insurance policy or declaration page" with the catalog's
actionable-outcome text as its reason. -/
theorem c8_missing_evidence (es : List ExpenseItem) (ds : List DamageClaim)
    (fns : List String) :
    (∀ req ∈ DOCUMENT_REQUIREMENTS,
      (({ item := req.name, reason := req.actionable_outcomes } : MissingEvidence)
          ∈ _detect_missing_evidence es ds fns
        ↔ ∀ kw ∈ keywordsFor req.id,
            (foundCategories es ds).contains kw = false
            ∧ pyIn kw (pyJoin " " (fns.map pyLower)) = false))
    ∧ ((∀ e ∈ es, pyIn "insurance" (pyLower e.category) = false
          ∧ pyIn "insurance" (pyLower e.document_type) = false) →
       (∀ fn ∈ fns, pyIn "insurance" (pyLower fn) = false) →
       ({ item := "Insurance policy or declaration page",
          reason := "Insurance claim; SBA loan verification of coverage." }
          : MissingEvidence)
         ∈ _detect_missing_evidence es ds fns) := by
  constructor
  · exact fun req hreq => detect_mem_iff es ds fns req hreq
  · intro h1 h2
    have hmem := (detect_mem_iff es ds fns
      { id := "insurance",
        name := "Insurance policy or declaration page",
        required_fields := ["carrier", "policy number", "coverage period",
          "property address"],
        date_range := "Current policy period",
        forms := "None",
        actionable_outcomes := "Insurance claim; SBA loan verification of coverage." }
      (by decide)).mpr ?_
    · exact hmem
    · intro kw hkw
      have hkweq : kw = "insurance" := List.mem_singleton.mp hkw
      subst hkweq
      refine ⟨foundCategories_insurance_false es ds h1, ?_⟩
      apply pyIn_join_sep "insurance" (by decide) (by decide)
      intro p hp
      obtain ⟨fn, hfn, hpl⟩ := List.mem_map.mp hp
      rw [← hpl]
      exact h2 fn hfn

/-- Witness for C8: with no expenses, no damage claims and the single
filename "photo1.jpg", the insurance requirement is reported missing. -/
theorem c8_missing_evidence_witness :
    ({ item := "Insurance policy or declaration page",
       reason := "Insurance claim; SBA loan verification of coverage." }
       : MissingEvidence)
      ∈ _detect_missing_evidence [] [] ["photo1.jpg"] :=
  (c8_missing_evidence [] [] ["photo1.jpg"]).2
    (by intro e he; exact absurd he (List.not_mem_nil e))
    (by decide)
